import Mathlib

/-!
Verification of the Google service-account subsystem of the
`chanfana-openapi-template` repository: JWT construction and token
exchange (`getAccessToken`), Drive folder resolution
(`getOrCreateFolder`), multipart upload body/Content-Length
(`GoogleDriveUpload.handle`), Sheets row lookup (`findExistingRow`),
sheet creation (`ensureSheetExists`), the append/update upsert
(`GoogleSheetsSync.handle`), sheet reads (`GoogleSheetsRead.handle`),
and the handlers' catch-all error responses.

The definitions below are a shallow embedding of the TypeScript source:
pure computations become Lean functions, network calls become explicit
response parameters (the response the endpoint would have produced) or
response streams indexed by a request counter, and thrown exceptions
become `Except` errors.
-/

namespace SpecProof

/-! ## String and byte helpers -/

/-- UTF-8 encoding of one character, as the list of its byte values
(models `TextEncoder().encode` acting character by character). -/
def utf8EncodeChar (c : Char) : List Nat :=
  let n := c.toNat
  if n < 128 then [n]
  else if n < 2048 then [192 + n / 64, 128 + n % 64]
  else if n < 65536 then [224 + n / 4096, 128 + n / 64 % 64, 128 + n % 64]
  else [240 + n / 262144, 128 + n / 4096 % 64, 128 + n / 64 % 64, 128 + n % 64]

/-- UTF-8 bytes of a string (models `new TextEncoder().encode(s)`). -/
def strBytes (s : String) : List Nat :=
  s.data.flatMap utf8EncodeChar

/-- Does the list start with `sub`? (executable, used for substring checks). -/
def subAt : List Char → List Char → Bool
  | [], _ => true
  | _ :: _, [] => false
  | a :: as, b :: bs => a == b && subAt as bs

/-- Does `sub` occur contiguously anywhere in the list? -/
def hasSubList (sub : List Char) : List Char → Bool
  | [] => sub.isEmpty
  | x :: rest => subAt sub (x :: rest) || hasSubList sub rest

/-- Does the string `sub` occur contiguously in `s`? -/
def strHasSub (s sub : String) : Bool :=
  hasSubList sub.data s.data

theorem subAt_append_self (sub post : List Char) : subAt sub (sub ++ post) = true := by
  induction sub with
  | nil => rfl
  | cons a as ih => simp [subAt, ih]

theorem hasSubList_append (sub pre post : List Char) :
    hasSubList sub (pre ++ (sub ++ post)) = true := by
  induction pre with
  | nil =>
    cases h : sub ++ post with
    | nil =>
      have hs : sub = [] := by
        cases sub with
        | nil => rfl
        | cons a as => simp at h
      simp [hs, hasSubList, List.isEmpty]
    | cons x rest =>
      simp only [List.nil_append, h, hasSubList]
      rw [← h, subAt_append_self]
      simp
  | cons p ps ih =>
    simp only [List.cons_append, hasSubList, List.append_eq]
    rw [ih]
    simp

/-- Substring presence for a string built as `pre ++ sub ++ post`. -/
theorem strHasSub_of_parts (pre sub post : String) :
    strHasSub (pre ++ (sub ++ post)) sub = true := by
  simp only [strHasSub, String.data_append]
  exact hasSubList_append sub.data pre.data post.data

/-- Substring presence via an explicit decomposition. -/
theorem strHasSub_decomp (s pre sub post : String) (h : s = pre ++ (sub ++ post)) :
    strHasSub s sub = true := by
  rw [h]
  exact strHasSub_of_parts pre sub post

/-! ## Base64 / base64url (models `btoa` followed by the three
`replace(/=/g,'') . replace(/\+/g,'-') . replace(/\//g,'_')` global
regex replacements; on a character list these are exactly a filter
dropping every `=` and a map sending `+` to `-` and `/` to `_`). -/

/-- The standard base64 alphabet. -/
def base64Alphabet : List Char :=
  "ABCDEFGHIJKLMNOPQRSTUVWXYZabcdefghijklmnopqrstuvwxyz0123456789+/".data

/-- The base64 digit for a 6-bit value. -/
def b64digit (n : Nat) : Char := base64Alphabet.getD n 'A'

/-- `btoa` over a byte list: base64 with `=` padding. -/
def btoaChars : List Nat → List Char
  | [] => []
  | [b0] => [b64digit (b0 / 4), b64digit (b0 % 4 * 16), '=', '=']
  | [b0, b1] => [b64digit (b0 / 4), b64digit (b0 % 4 * 16 + b1 / 16),
      b64digit (b1 % 16 * 4), '=']
  | b0 :: b1 :: b2 :: rest =>
      b64digit (b0 / 4) :: b64digit (b0 % 4 * 16 + b1 / 16) ::
      b64digit (b1 % 16 * 4 + b2 / 64) :: b64digit (b2 % 64) :: btoaChars rest

/-- `.replace(/=/g, '')`: drop every padding character. -/
def stripPad (cs : List Char) : List Char := cs.filter (fun c => c != '=')

/-- `.replace(/\+/g,'-').replace(/\//g,'_')`: make the alphabet URL-safe. -/
def toUrlSafe (cs : List Char) : List Char :=
  cs.map (fun c => if c == '+' then '-' else if c == '/' then '_' else c)

/-- The base64url-without-padding encoding used for the JWT segments. -/
def base64UrlEncode (bytes : List Nat) : List Char :=
  toUrlSafe (stripPad (btoaChars bytes))

theorem base64UrlEncode_no_pad (bytes : List Nat) : '=' ∉ base64UrlEncode bytes := by
  intro hmem
  simp only [base64UrlEncode, toUrlSafe, List.mem_map] at hmem
  obtain ⟨c, hc, heq⟩ := hmem
  simp only [stripPad, List.mem_filter, bne_iff_ne, ne_eq, decide_eq_true_eq] at hc
  by_cases h1 : c = '+' <;> by_cases h2 : c = '/' <;> simp [h1, h2] at heq
  exact hc.2 heq

theorem base64UrlEncode_no_plus (bytes : List Nat) : '+' ∉ base64UrlEncode bytes := by
  intro hmem
  simp only [base64UrlEncode, toUrlSafe, List.mem_map] at hmem
  obtain ⟨c, hc, heq⟩ := hmem
  by_cases h1 : c = '+' <;> by_cases h2 : c = '/' <;> simp [h1, h2] at heq

theorem base64UrlEncode_no_slash (bytes : List Nat) : '/' ∉ base64UrlEncode bytes := by
  intro hmem
  simp only [base64UrlEncode, toUrlSafe, List.mem_map] at hmem
  obtain ⟨c, hc, heq⟩ := hmem
  by_cases h1 : c = '+' <;> by_cases h2 : c = '/' <;> simp [h1, h2] at heq

/-! ## Service-account credentials and the JWT built by `getAccessToken`
(from `src/endpoints/google-drive-upload.ts` lines 156–228 and the
identical copies in `google-sheets-sync.ts` and the sheets-read
handler). -/

/-- The environment fields the token code reads
(`GOOGLE_PRIVATE_KEY_ID`, `GOOGLE_CLIENT_EMAIL`). -/
structure GoogleEnv where
  privateKeyId : String
  clientEmail : String
deriving Repr, DecidableEq

/-- JWT header as built by `getAccessToken`. -/
structure JwtHeader where
  alg : String
  typ : String
  kid : String
deriving Repr, DecidableEq

/-- JWT payload as built by `getAccessToken`. -/
structure JwtPayload where
  iss : String
  scope : String
  aud : String
  exp : Nat
  iat : Nat
deriving Repr, DecidableEq

/-- The two Drive scopes hard-coded in the drive-upload `getAccessToken`. -/
def driveScopes : List String :=
  ["https://www.googleapis.com/auth/drive", "https://www.googleapis.com/auth/drive.file"]

/-- `jwtHeader` from the source: `{alg: 'RS256', typ: 'JWT', kid: env.GOOGLE_PRIVATE_KEY_ID}`. -/
def buildJwtHeader (env : GoogleEnv) : JwtHeader :=
  { alg := "RS256", typ := "JWT", kid := env.privateKeyId }

/-- `jwtPayload` from the drive-upload source: issuer is the client
email, scope is the hard-coded two-scope string, audience is the token
endpoint, and the window is `iat = now`, `exp = now + 3600`. -/
def buildJwtPayload (env : GoogleEnv) (now : Nat) : JwtPayload :=
  { iss := env.clientEmail
    scope := "https://www.googleapis.com/auth/drive https://www.googleapis.com/auth/drive.file"
    aud := "https://oauth2.googleapis.com/token"
    exp := now + 3600
    iat := now }

/-- JSON string escaping for the characters `JSON.stringify` always
escapes in these fields (quote and backslash). -/
def jsonEscape (s : String) : String :=
  ⟨s.data.flatMap (fun c => if c = '"' ∨ c = '\\' then ['\\', c] else [c])⟩

/-- A JSON string literal. -/
def jsonStr (s : String) : String := "\"" ++ jsonEscape s ++ "\""

/-- `JSON.stringify(jwtHeader)` (insertion order `alg`, `typ`, `kid`). -/
def jwtHeaderJson (h : JwtHeader) : String :=
  "\x7b\"alg\":" ++ jsonStr h.alg ++ ",\"typ\":" ++ jsonStr h.typ ++
    ",\"kid\":" ++ jsonStr h.kid ++ "\x7d"

/-- `JSON.stringify(jwtPayload)` (insertion order `iss`, `scope`, `aud`,
`exp`, `iat`). -/
def jwtPayloadJson (p : JwtPayload) : String :=
  "\x7b\"iss\":" ++ jsonStr p.iss ++ ",\"scope\":" ++ jsonStr p.scope ++
    ",\"aud\":" ++ jsonStr p.aud ++ ",\"exp\":" ++ toString p.exp ++
    ",\"iat\":" ++ toString p.iat ++ "\x7d"

/-- `encodedHeader`: base64url (no padding) of the stringified header. -/
def encodedHeader (env : GoogleEnv) : List Char :=
  base64UrlEncode (strBytes (jwtHeaderJson (buildJwtHeader env)))

/-- `encodedPayload`: base64url (no padding) of the stringified payload. -/
def encodedPayload (env : GoogleEnv) (now : Nat) : List Char :=
  base64UrlEncode (strBytes (jwtPayloadJson (buildJwtPayload env now)))

/-- The signed JWT: `unsignedToken ++ "." ++ encodedSignature`, where the
RSA signature bytes are a parameter (the `crypto.subtle.sign` output is
outside the embedded fragment). -/
def buildJwt (env : GoogleEnv) (now : Nat) (sigBytes : List Nat) : String :=
  ⟨encodedHeader env⟩ ++ "." ++ ⟨encodedPayload env now⟩ ++ "." ++
    ⟨base64UrlEncode sigBytes⟩

/-! ## The token endpoint exchange (`getAccessToken`, network part)

The source issues one `fetch` to `https://oauth2.googleapis.com/token`
per call, unconditionally: the class has no cache field and no branch
that skips the request.  We model the endpoint as a response stream `f`
indexed by how many token requests have been issued so far, and thread
that counter explicitly. -/

/-- What the token endpoint answers one request with. -/
structure TokenResponse where
  ok : Bool
  status : Nat
  access_token : String
deriving Repr, DecidableEq

/-- Outcome of one `getAccessToken` body on a given endpoint response:
`ok` responses yield `tokenData.access_token`; others throw
`Token request failed: <status>`. -/
def getAccessTokenCall (resp : TokenResponse) : Except String String :=
  if resp.ok then Except.ok resp.access_token
  else Except.error ("Token request failed: " ++ toString resp.status)

/-- One `getAccessToken` call when `n` token-endpoint requests were
already issued: it always issues request number `n` (there is no cache),
so the counter advances to `n + 1`. -/
def getAccessTokenAt (f : Nat → TokenResponse) (n : Nat) :
    Except String String × Nat :=
  (getAccessTokenCall (f n), n + 1)

/-! ## Drive folder resolution

Two variants exist in the source.  The hand-rolled REST variant
(`google-drive-upload.ts` line 244) searches with
`name='<part>' and '<parentId>' in parents and mimeType='application/vnd.google-apps.folder'`
— no `trashed=false` clause — and treats a falsy first id as absent.
The googleapis variant (line 458) searches with
`name='<name>' and parents in '<parentId>' and mimeType='application/vnd.google-apps.folder' and trashed=false`
and returns `files[0].id` whenever the list is nonempty. -/

/-- The `q` filter of the hand-rolled REST `getOrCreateFolder` (the
template literal, split here at the boundaries of its three
conditions). -/
def restFolderQuery (part parentId : String) : String :=
  ("name='" ++ part ++ "'") ++ " and " ++ ("'" ++ parentId ++ "' in parents") ++
    " and " ++ "mimeType='application/vnd.google-apps.folder'"

/-- The `q` filter of the googleapis-variant `getOrCreateFolder` (the
template literal, split here at the boundaries of its four
conditions). -/
def apiFolderQuery (name parentId : String) : String :=
  ("name='" ++ name ++ "'") ++ " and " ++ ("parents in '" ++ parentId ++ "'") ++
    " and " ++ "mimeType='application/vnd.google-apps.folder'" ++
    " and " ++ "trashed=false"

/-- One search step of the REST `getOrCreateFolder`:
`folderId = files.length > 0 ? files[0].id : null; if (!folderId) create`.
The returned flag records whether a create request was issued; a falsy
(empty-string) first id triggers creation, mirroring the `!folderId`
truthiness test. -/
def restFolderStep (files : List String) (createdId : String) : String × Bool :=
  match files with
  | [] => (createdId, true)
  | id :: _ => if id = "" then (createdId, true) else (id, false)

/-- One search step of the googleapis `getOrCreateFolder`:
`if (files && files.length > 0) return files[0].id` else create. -/
def apiFolderStep (files : List String) (createdId : String) : String × Bool :=
  match files with
  | [] => (createdId, true)
  | id :: _ => (id, false)

/-! ## Multipart upload body and Content-Length
(`GoogleDriveUpload.handle`, lines 86–120). -/

/-- The fixed multipart boundary from the source. -/
def boundary : String := "-------314159265358979323846"

/-- `delimiter`: `\r\n--` ++ boundary ++ `\r\n`. -/
def delimiter : String := "\r\n--" ++ boundary ++ "\r\n"

/-- `close_delim`: `\r\n--` ++ boundary ++ `--`. -/
def close_delim : String := "\r\n--" ++ boundary ++ "--"

/-- `multipartRequestBody`: delimiter, JSON part headers, the metadata
JSON, delimiter, binary part headers. -/
def multipartLead (metadataJson : String) : String :=
  delimiter ++ "Content-Type: application/json\r\n\r\n" ++ metadataJson ++
    delimiter ++ "Content-Type: image/jpeg\r\n\r\n"

/-- The combined buffer actually sent: encoded lead bytes, then the raw
payload bytes, then the encoded closing delimiter. -/
def multipartBody (metadataJson : String) (payload : List Nat) : List Nat :=
  strBytes (multipartLead metadataJson) ++ payload ++ strBytes close_delim

/-- `totalLength` as the source computes it, from the three buffer
lengths. -/
def totalLength (metadataJson : String) (payload : List Nat) : Nat :=
  (strBytes (multipartLead metadataJson)).length + payload.length +
    (strBytes close_delim).length

/-- The `Content-Length` header value: `totalLength.toString()`. -/
def contentLengthHeader (metadataJson : String) (payload : List Nat) : String :=
  toString (totalLength metadataJson payload)

/-- `JSON.stringify({name: simpleFilename, parents: ['root']})`. -/
def uploadMetadataJson (simpleFilename : String) : String :=
  "\x7b\"name\":" ++ jsonStr simpleFilename ++ ",\"parents\":[\"root\"]\x7d"

/-! ## Sheets: reading values and the row lookup
(`GoogleSheetsSync.findExistingRow` and `GoogleSheetsRead.handle`). -/

/-- A non-success Sheets response as the error raised for it carries it:
status code and body text. -/
structure SheetsErr where
  status : Nat
  body : String
deriving Repr, DecidableEq

/-- The `for` loop of `findExistingRow`: scan the rows of the `A:A`
read; `values[i][0] === incidentId` returns `i + 1` (1-based); falling
off the end returns 0.  `i` is the 0-based loop index. -/
def findRowAux (k : String) : List (List String) → Nat → Nat
  | [], _ => 0
  | row :: rest, i => if row.head? = some k then i + 1 else findRowAux k rest (i + 1)

/-- `findExistingRow(sheets, spreadsheetId, sheetName, incidentId)`:
the read of range `A:A` either throws (caught: the catch block logs and
returns 0), returns no `values` field (return 0), or returns rows that
are scanned for the key. -/
def findExistingRow (readA : Except SheetsErr (Option (List (List String))))
    (incidentId : String) : Nat :=
  match readA with
  | Except.error _ => 0
  | Except.ok none => 0
  | Except.ok (some values) => findRowAux incidentId values 0

/-- What a successful `A:A` read returns for a sheet held as a row-major
grid: each row's first cell (as a one-cell row, or an empty row when the
source row is empty). -/
def readColA (sheet : List (List String)) : List (List String) :=
  sheet.map (fun r => r.take 1)

/-- The incident record of `GoogleSheetsSync` (part of the request
schema; optional fields are the ones marked `.optional()`). -/
structure IncidentData where
  id : String
  tanggal : String
  jam_mulai : String
  jam_selesai : Option String
  durasi : Option String
  lokasi : String
  deskripsi : String
  status : String
  teknisi_nama : String
  foto_odo_awal : Option String
  foto_tim_awal : Option String
  foto_odo_akhir : Option String
  foto_tim_akhir : Option String
  created_at : String
  updated_at : String
deriving Repr, DecidableEq

/-- JS truthiness of an optional string field: `x ? 'Ya' : 'Tidak'`
(absent and empty string are both falsy). -/
def yaTidak : Option String → String
  | none => "Tidak"
  | some s => if s = "" then "Tidak" else "Ya"

/-- `x || ''` for an optional string field. -/
def orEmpty : Option String → String
  | none => ""
  | some s => s

/-- `rowData` as assembled by `GoogleSheetsSync.handle`: fifteen cells,
`A` through `O`, keyed by the incident id in the first cell. -/
def rowDataOf (d : IncidentData) : List String :=
  [d.id, d.tanggal, d.jam_mulai, orEmpty d.jam_selesai, orEmpty d.durasi,
   d.lokasi, d.deskripsi, d.status, d.teknisi_nama,
   yaTidak d.foto_odo_awal, yaTidak d.foto_tim_awal,
   yaTidak d.foto_odo_akhir, yaTidak d.foto_tim_akhir,
   d.created_at, d.updated_at]

/-- The write the sync handler issues after the lookup. -/
inductive SyncAction where
  | update (range : String) (row : List String)
  | append (range : String) (row : List String)
deriving Repr, DecidableEq

/-- The branch of `GoogleSheetsSync.handle` after `findExistingRow`:
a positive index updates `<sheet>!A<i>:O<i>` with the single row;
index 0 appends the row to `<sheet>!A:O`. -/
def syncAction (sheetName : String)
    (readA : Except SheetsErr (Option (List (List String))))
    (d : IncidentData) : SyncAction :=
  let i := findExistingRow readA d.id
  if 0 < i then
    SyncAction.update (sheetName ++ "!A" ++ toString i ++ ":O" ++ toString i) (rowDataOf d)
  else
    SyncAction.append (sheetName ++ "!A:O") (rowDataOf d)

/-- The effect of one sync on the sheet grid: the lookup reads column A
of the current grid; a hit overwrites exactly that (1-based) row, a miss
appends the record as a new last row. -/
def applySync (sheet : List (List String)) (d : IncidentData) :
    List (List String) :=
  let i := findExistingRow (Except.ok (some (readColA sheet))) d.id
  if 0 < i then sheet.set (i - 1) (rowDataOf d) else sheet ++ [rowDataOf d]

/-! ## Sheets: `ensureSheetExists` (`GoogleSheetsSync`). -/

/-- A sheet (tab): its title and its cell grid. -/
structure Sheet where
  title : String
  cells : List (List String)
deriving Repr, DecidableEq

/-- A spreadsheet: its list of sheets. -/
structure Spreadsheet where
  sheets : List Sheet
deriving Repr, DecidableEq

/-- The fixed header row written into a newly added sheet. -/
def sheetHeaders : List String :=
  ["ID Insiden", "Tanggal", "Jam Mulai", "Jam Selesai", "Durasi", "Lokasi",
   "Deskripsi", "Status", "Teknisi", "Foto Odo Awal", "Foto Tim Awal",
   "Foto Odo Akhir", "Foto Tim Akhir", "Dibuat", "Diperbarui"]

/-- The `batchUpdate`/`addSheet` request: a new empty sheet with the
given title is appended. -/
def addSheet (ss : Spreadsheet) (title : String) : Spreadsheet :=
  ⟨ss.sheets ++ [⟨title, []⟩]⟩

/-- Writing `A1:O1`: overwrite the first row of the grid. -/
def setRow1 (cells : List (List String)) (hdr : List String) : List (List String) :=
  match cells with
  | [] => [hdr]
  | _ :: rest => hdr :: rest

/-- The `values.update` on range `<title>!A1:O1`: the header row goes
into the first row of the sheet with that title. -/
def setHeaderRow (ss : Spreadsheet) (title : String) (hdr : List String) : Spreadsheet :=
  ⟨ss.sheets.map (fun s => if s.title = title then ⟨s.title, setRow1 s.cells hdr⟩ else s)⟩

/-- `ensureSheetExists`: fetch metadata, test
`sheets.some(s => s.properties.title === sheetName)`; when absent, add
the sheet and write the headers; when present, do nothing.  The flag
records whether a `batchUpdate` was issued. -/
def ensureSheetExists (ss : Spreadsheet) (title : String) : Spreadsheet × Bool :=
  if ss.sheets.any (fun s => s.title = title) then (ss, false)
  else (setHeaderRow (addSheet ss title) title sheetHeaders, true)

/-- How many sheets of `ss` carry the given title. -/
def countTitled (ss : Spreadsheet) (title : String) : Nat :=
  ss.sheets.countP (fun s => s.title = title)

/-- The first row of the first sheet carrying the given title, if any. -/
def headerOf (ss : Spreadsheet) (title : String) : Option (List String) :=
  match ss.sheets.find? (fun s => s.title = title) with
  | none => none
  | some s => s.cells.head?

/-! ## Sheets: the read handler (`GoogleSheetsRead.handle`). -/

/-- A non-success upstream HTTP response as the handlers see it. -/
structure UpstreamResp where
  ok : Bool
  status : Nat
  statusText : String
  body : String
deriving Repr, DecidableEq

/-- The error message `GoogleSheetsRead.handle` throws for a failed
read: it carries the upstream status, status text, and body. -/
def readErrMsg (resp : UpstreamResp) : String :=
  "Failed to read data: " ++ toString resp.status ++ " " ++ resp.statusText ++
    ". Details: " ++ resp.body

/-- The read step of `GoogleSheetsRead.handle`: success yields
`result.values || []` (an empty sheet gives an empty list with a
success response); any non-success response throws an explicit error. -/
def sheetsReadResult (resp : UpstreamResp) (values : Option (List (List String))) :
    Except String (List (List String)) :=
  if resp.ok then Except.ok (values.getD [])
  else Except.error (readErrMsg resp)

/-! ## Upstream request traces (retry behaviour) and the handlers'
catch-all responses. -/

/-- The upstream calls of the drive-upload operation, in program order. -/
inductive ReqKind where
  | token
  | driveTest
  | upload
deriving Repr, DecidableEq

/-- `GoogleDriveUpload.handle` after schema parsing, as a trace of the
upstream requests it issues together with its outcome.  Control flow of
the source: one token fetch inside `getAccessToken` (throw on failure),
one Drive-access test fetch (throw on failure), one multipart upload
fetch (throw on failure); there is no loop or second attempt around any
of them. -/
def driveUploadRun (tok test up : UpstreamResp) (fileId : String) :
    Except String String × List ReqKind :=
  if tok.ok = false then
    (Except.error ("Token request failed: " ++ toString tok.status), [ReqKind.token])
  else if test.ok = false then
    (Except.error ("Drive API access failed: " ++ toString test.status ++ " - " ++ test.body),
     [ReqKind.token, ReqKind.driveTest])
  else if up.ok = false then
    (Except.error ("Upload failed: " ++ toString up.status ++ " " ++ up.statusText ++
       " - " ++ up.body),
     [ReqKind.token, ReqKind.driveTest, ReqKind.upload])
  else
    (Except.ok fileId, [ReqKind.token, ReqKind.driveTest, ReqKind.upload])

/-- The upstream calls of the sheets-sync operation, in program order. -/
inductive SheetsReq where
  | metaGet
  | batchAdd
  | headerWrite
  | colARead
  | rowWrite
deriving Repr, DecidableEq

/-- `GoogleSheetsSync.handle` after parsing, as a trace of its upstream
requests: one metadata get (throw on failure), at most one
`batchUpdate` plus one header write (only when the sheet is missing,
each throwing on failure), one `A:A` read (failure caught, becomes
index 0), one row update or append (throw on failure).  No call site is
retried. -/
def sheetsSyncRun (metaResp : Except String Bool) (addResp hdrResp : Except String Unit)
    (readA : Except SheetsErr (Option (List (List String))))
    (writeResp : Except String Unit) (d : IncidentData) :
    Except String Unit × List SheetsReq :=
  match metaResp with
  | Except.error m => (Except.error m, [SheetsReq.metaGet])
  | Except.ok sheetThere =>
    let creation : Except String Unit × List SheetsReq :=
      if sheetThere then (Except.ok (), [])
      else
        match addResp with
        | Except.error m => (Except.error m, [SheetsReq.batchAdd])
        | Except.ok _ =>
          match hdrResp with
          | Except.error m => (Except.error m, [SheetsReq.batchAdd, SheetsReq.headerWrite])
          | Except.ok _ => (Except.ok (), [SheetsReq.batchAdd, SheetsReq.headerWrite])
    match creation with
    | (Except.error m, reqs) => (Except.error m, SheetsReq.metaGet :: reqs)
    | (Except.ok _, reqs) =>
      let _ := findExistingRow readA d.id
      match writeResp with
      | Except.error m =>
        (Except.error m, SheetsReq.metaGet :: reqs ++ [SheetsReq.colARead, SheetsReq.rowWrite])
      | Except.ok _ =>
        (Except.ok (), SheetsReq.metaGet :: reqs ++ [SheetsReq.colARead, SheetsReq.rowWrite])

/-- The JSON responses the handlers return. -/
structure JsonResponse where
  status : Nat
  success : Bool
  errorMsg : Option String
  payload : Option String
deriving Repr, DecidableEq

/-- The `try/catch` wrapper shared by every handler: a thrown error is
caught and turned into `c.json({success: false, error: message}, 500)`;
nothing escapes. -/
def catchWrap (r : Except String JsonResponse) : JsonResponse :=
  match r with
  | Except.ok resp => resp
  | Except.error m => ⟨500, false, some m, none⟩

/-- `GoogleDriveUpload.handle` end to end: schema parse (throws on
invalid body), then the upstream calls, all inside the catch. -/
def googleDriveUploadHandle (parsed : Except String String)
    (tok test up : UpstreamResp) (fileId : String) : JsonResponse :=
  catchWrap (do
    let _ ← parsed
    match (driveUploadRun tok test up fileId).1 with
    | Except.error m => Except.error m
    | Except.ok fid => Except.ok ⟨200, true, none, some fid⟩)

/-- `GoogleSheetsSync.handle` end to end, inside the catch. -/
def googleSheetsSyncHandle (parsed : Except String IncidentData)
    (metaResp : Except String Bool) (addResp hdrResp : Except String Unit)
    (readA : Except SheetsErr (Option (List (List String))))
    (writeResp : Except String Unit) : JsonResponse :=
  catchWrap (do
    let d ← parsed
    match (sheetsSyncRun metaResp addResp hdrResp readA writeResp d).1 with
    | Except.error m => Except.error m
    | Except.ok _ => Except.ok ⟨200, true, none, some "synced"⟩)

/-- `SupabaseCrud.handle` end to end: schema parse, then the selected
operation (each `performX` throws on a service error), inside the catch. -/
def supabaseCrudHandle (parsed : Except String String)
    (opResult : Except String Nat) : JsonResponse :=
  catchWrap (do
    let _ ← parsed
    match opResult with
    | Except.error m => Except.error m
    | Except.ok n => Except.ok ⟨200, true, none, some (toString n)⟩)

/-! ## Lemmas about the row scan -/

/-- Specification companion of the scan: the 1-based position of the
first row whose first cell is `k`, if any. -/
def findIdx1 (k : String) : List (List String) → Option Nat
  | [] => none
  | row :: rest =>
    if row.head? = some k then some 1 else (findIdx1 k rest).map (· + 1)

theorem findRowAux_eq (k : String) (l : List (List String)) :
    ∀ i, findRowAux k l i = ((findIdx1 k l).map (fun m => i + m)).getD 0 := by
  induction l with
  | nil => intro i; rfl
  | cons row rest ih =>
    intro i
    by_cases h : row.head? = some k
    · simp [findRowAux, findIdx1, h]
    · simp only [findRowAux, findIdx1, h, if_false, if_neg, not_false_iff]
      rw [ih (i + 1)]
      cases hf : findIdx1 k rest with
      | none => simp
      | some m => simp [hf]; omega

theorem findIdx1_pos (k : String) (l : List (List String)) (m : Nat)
    (h : findIdx1 k l = some m) : 1 ≤ m := by
  induction l generalizing m with
  | nil => simp [findIdx1] at h
  | cons row rest ih =>
    by_cases hr : row.head? = some k
    · simp [findIdx1, hr] at h
      omega
    · simp only [findIdx1, hr, if_false, if_neg, not_false_iff] at h
      cases hf : findIdx1 k rest with
      | none => simp [hf] at h
      | some m' => simp [hf] at h; omega

theorem findIdx1_none_of (k : String) (l : List (List String))
    (h : ∀ r ∈ l, ¬ r.head? = some k) : findIdx1 k l = none := by
  induction l with
  | nil => rfl
  | cons row rest ih =>
    have hr : ¬ row.head? = some k := h row (by simp)
    simp only [findIdx1, hr, if_false, if_neg, not_false_iff]
    rw [ih (fun r hmem => h r (by simp [hmem]))]
    rfl

theorem findIdx1_append_none (k : String) (l : List (List String))
    (x : List String) (h : findIdx1 k l = none) (hx : x.head? = some k) :
    findIdx1 k (l ++ [x]) = some (l.length + 1) := by
  induction l with
  | nil => simp [findIdx1, hx]
  | cons row rest ih =>
    by_cases hr : row.head? = some k
    · simp [findIdx1, hr] at h
    · simp only [findIdx1, hr, if_false, if_neg, not_false_iff] at h
      cases hf : findIdx1 k rest with
      | none =>
        simp only [List.cons_append]
        simp only [findIdx1, hr, if_false, if_neg, not_false_iff]
        rw [ih hf]
        simp
      | some m' => simp [hf] at h

theorem findIdx1_set (k : String) (l : List (List String)) (m : Nat)
    (x : List String) (h : findIdx1 k l = some m) (hx : x.head? = some k) :
    findIdx1 k (l.set (m - 1) x) = some m := by
  induction l generalizing m with
  | nil => simp [findIdx1] at h
  | cons row rest ih =>
    by_cases hr : row.head? = some k
    · simp [findIdx1, hr] at h
      subst h
      simp [List.set, findIdx1, hx]
    · simp only [findIdx1, hr, if_false, if_neg, not_false_iff] at h
      cases hf : findIdx1 k rest with
      | none => simp [hf] at h
      | some m' =>
        simp [hf] at h
        subst h
        have hm' : 1 ≤ m' := findIdx1_pos k rest m' hf
        have hidx : m' + 1 - 1 = m' - 1 + 1 := by omega
        rw [hidx]
        simp only [List.set]
        simp only [findIdx1, hr, if_false, if_neg, not_false_iff]
        rw [ih m' hf]
        rfl

theorem findIdx1_first (k : String) (l : List (List String)) (j : Nat)
    (hj : j < l.length) (hget : (l.get ⟨j, hj⟩).head? = some k)
    (hbefore : ∀ j' (h : j' < j), (l.get ⟨j', h.trans hj⟩).head? ≠ some k) :
    findIdx1 k l = some (j + 1) := by
  induction l generalizing j with
  | nil => simp at hj
  | cons row rest ih =>
    cases j with
    | zero =>
      simp at hget
      simp [findIdx1, hget]
    | succ j' =>
      have hr : ¬ row.head? = some k := by
        have := hbefore 0 (Nat.succ_pos j')
        simpa using this
      simp only [findIdx1, hr, if_false, if_neg, not_false_iff]
      have hj' : j' < rest.length := by simpa using Nat.lt_of_succ_lt_succ hj
      have hget' : (rest.get ⟨j', hj'⟩).head? = some k := by simpa using hget
      have hbefore' : ∀ i (h : i < j'), (rest.get ⟨i, h.trans hj'⟩).head? ≠ some k := by
        intro i hi
        have := hbefore (i + 1) (Nat.succ_lt_succ hi)
        simpa using this
      rw [ih j' hj' hget' hbefore']
      rfl

theorem findIdx1_readColA (k : String) (l : List (List String)) :
    findIdx1 k (readColA l) = findIdx1 k l := by
  induction l with
  | nil => rfl
  | cons row rest ih =>
    have hhead : (row.take 1).head? = row.head? := by
      cases row <;> simp
    simp only [readColA, List.map_cons, findIdx1, hhead]
    simp only [readColA] at ih
    rw [ih]

/-- Overwriting the appended last row. -/
theorem set_length_append (l : List (List String)) (a b : List String) :
    (l ++ [a]).set l.length b = l ++ [b] := by
  induction l with
  | nil => rfl
  | cons x xs ih => simp [List.set, ih]

/-! ## Claim C1 -/

/-- A token endpoint answering every request successfully, naming the
request number in the token. -/
def demoTokenStream : Nat → TokenResponse :=
  fun n => ⟨true, 200, if n = 0 then "tok-A" else "tok-B"⟩

/-- Claim C1, counterexample: `getAccessToken` caches nothing — the
class has no token field and the code consults no clock before
fetching — so a second call made while the first token is still well
within its validity window issues a second token-endpoint request (the
request counter reaches 2) and returns that second response's token,
which differs from the first call's value whenever the endpoint answers
differently. -/
theorem getAccessToken_second_call_refetches :
    (getAccessTokenAt demoTokenStream ((getAccessTokenAt demoTokenStream 0).2)).2 = 2
    ∧ (getAccessTokenAt demoTokenStream ((getAccessTokenAt demoTokenStream 0).2)).1
        = Except.ok "tok-B"
    ∧ (getAccessTokenAt demoTokenStream 0).1 = Except.ok "tok-A"
    ∧ ¬ (getAccessTokenAt demoTokenStream ((getAccessTokenAt demoTokenStream 0).2)).1
        = (getAccessTokenAt demoTokenStream 0).1 := by
  refine ⟨rfl, rfl, rfl, ?_⟩
  intro h
  simp [getAccessTokenAt, getAccessTokenCall, demoTokenStream] at h

/-- Claim C1, amended: `getAccessToken` performs no caching for any
scope set: every call, whatever time has elapsed, issues exactly one
fresh token-endpoint request (the issued-request counter advances by
one per call) and returns the `access_token` of that fresh response;
two consecutive calls therefore issue two requests, each returning its
own response's token. -/
theorem getAccessToken_always_refetches (f : Nat → TokenResponse) (n : Nat)
    (h1 : (f n).ok = true) (h2 : (f (n + 1)).ok = true) :
    (getAccessTokenAt f n).2 = n + 1
    ∧ (getAccessTokenAt f n).1 = Except.ok (f n).access_token
    ∧ (getAccessTokenAt f ((getAccessTokenAt f n).2)).2 = n + 2
    ∧ (getAccessTokenAt f ((getAccessTokenAt f n).2)).1
        = Except.ok (f (n + 1)).access_token := by
  simp [getAccessTokenAt, getAccessTokenCall, h1, h2]

/-- Witness for the amended C1 theorem at a concrete response stream. -/
theorem getAccessToken_always_refetches_witness :
    (getAccessTokenAt demoTokenStream 0).2 = 0 + 1
    ∧ (getAccessTokenAt demoTokenStream 0).1
        = Except.ok (demoTokenStream 0).access_token
    ∧ (getAccessTokenAt demoTokenStream ((getAccessTokenAt demoTokenStream 0).2)).2 = 0 + 2
    ∧ (getAccessTokenAt demoTokenStream ((getAccessTokenAt demoTokenStream 0).2)).1
        = Except.ok (demoTokenStream (0 + 1)).access_token :=
  getAccessToken_always_refetches demoTokenStream 0 rfl rfl

/-! ## Claim C5 -/

/-- Claim C5: for every metadata JSON and every payload of N bytes, the
Content-Length header value equals the decimal rendering of the byte
length of the body actually sent, and that byte length is exactly the
UTF-8 byte length of the encoded lead (delimiter, JSON-part headers,
metadata JSON, delimiter, binary-part headers) plus N plus the byte
length of the closing delimiter — no off-by-one. -/
theorem contentLength_matches_body (metadataJson : String) (payload : List Nat) :
    (multipartBody metadataJson payload).length = totalLength metadataJson payload
    ∧ totalLength metadataJson payload =
        (strBytes (multipartLead metadataJson)).length + payload.length +
          (strBytes close_delim).length
    ∧ contentLengthHeader metadataJson payload =
        toString ((multipartBody metadataJson payload).length) := by
  have hlen : (multipartBody metadataJson payload).length = totalLength metadataJson payload := by
    simp [multipartBody, totalLength]
    omega
  exact ⟨hlen, rfl, by rw [hlen]; rfl⟩

/-! ## Claim C7 -/

/-- Claim C7: the JWT built by `getAccessToken` has header
`alg = RS256`, `typ = JWT`, `kid = privateKeyId`, and payload with
`iss` the client email, `scope` the scope set joined by spaces, `aud`
the token-endpoint URL, and `exp - iat = 3600`; header and payload are
base64url-encoded without padding (no `=`, and no `+` or `/` survives
the URL-safe substitution).  The assembled JWT is the three encoded
segments joined by dots. -/
theorem jwt_structure (env : GoogleEnv) (now : Nat) (sigBytes : List Nat) :
    (buildJwtHeader env).alg = "RS256"
    ∧ (buildJwtHeader env).typ = "JWT"
    ∧ (buildJwtHeader env).kid = env.privateKeyId
    ∧ (buildJwtPayload env now).iss = env.clientEmail
    ∧ (buildJwtPayload env now).scope = String.intercalate " " driveScopes
    ∧ (buildJwtPayload env now).aud = "https://oauth2.googleapis.com/token"
    ∧ (buildJwtPayload env now).exp - (buildJwtPayload env now).iat = 3600
    ∧ '=' ∉ encodedHeader env
    ∧ '=' ∉ encodedPayload env now
    ∧ '+' ∉ encodedHeader env
    ∧ '/' ∉ encodedHeader env
    ∧ '+' ∉ encodedPayload env now
    ∧ '/' ∉ encodedPayload env now
    ∧ buildJwt env now sigBytes =
        (⟨encodedHeader env⟩ : String) ++ "." ++ (⟨encodedPayload env now⟩ : String)
          ++ "." ++ (⟨base64UrlEncode sigBytes⟩ : String) := by
  refine ⟨rfl, rfl, rfl, rfl, by rfl, rfl, ?_, ?_, ?_, ?_, ?_, ?_, ?_, rfl⟩
  · simp [buildJwtPayload]
  · exact base64UrlEncode_no_pad _
  · exact base64UrlEncode_no_pad _
  · exact base64UrlEncode_no_plus _
  · exact base64UrlEncode_no_slash _
  · exact base64UrlEncode_no_plus _
  · exact base64UrlEncode_no_slash _

/-! ## Claim C8 -/

/-- Claim C8, counterexample: `GoogleSheetsSync.findExistingRow`
catches every read failure and returns 0, so a failed `A:A` read (here
a 404, sheet not found) is converted into the 0 / not-found result —
indistinguishable from a genuinely absent key. -/
theorem findExistingRow_error_returns_zero :
    findExistingRow (Except.error ⟨404, "Requested entity was not found."⟩) "INC-1" = 0
    ∧ findExistingRow (Except.ok (some [["INC-2"]])) "INC-1" = 0 := by
  exact ⟨rfl, rfl⟩

/-- Claim C8, amended: `GoogleSheetsRead.handle` raises an explicit
error for every non-success read, carrying the upstream status and
body in its message, and a successful read of an empty sheet yields a
success with an empty list — so that handler's callers can distinguish
"no sheet" from "empty sheet"; but `GoogleSheetsSync.findExistingRow`
catches read failures and returns 0, converting a failed read into the
not-found result. -/
theorem sheetsRead_explicit_error (resp : UpstreamResp)
    (values : Option (List (List String)))
    (hfail : resp.ok = false) :
    sheetsReadResult resp values = Except.error (readErrMsg resp)
    ∧ strHasSub (readErrMsg resp) (toString resp.status) = true
    ∧ strHasSub (readErrMsg resp) resp.body = true
    ∧ (∀ resp2 : UpstreamResp, ∀ vs2 : Option (List (List String)), resp2.ok = true →
        sheetsReadResult resp2 vs2 = Except.ok (vs2.getD []))
    ∧ (∀ e : SheetsErr, ∀ k : String, findExistingRow (Except.error e) k = 0) := by
  refine ⟨by simp [sheetsReadResult, hfail], ?_, ?_, ?_, ?_⟩
  · refine strHasSub_decomp _ "Failed to read data: " _
      (" " ++ resp.statusText ++ ". Details: " ++ resp.body) (String.ext ?_)
    simp [readErrMsg, String.data_append]
  · refine strHasSub_decomp _
      ("Failed to read data: " ++ toString resp.status ++ " " ++ resp.statusText
        ++ ". Details: ") _ "" (String.ext ?_)
    simp [readErrMsg, String.data_append]
  · intro resp2 vs2 hok
    simp [sheetsReadResult, hok]
  · intro e k
    rfl

/-- Witness for the amended C8 theorem at a concrete failed response. -/
theorem sheetsRead_explicit_error_witness :
    sheetsReadResult ⟨false, 404, "Not Found", "no sheet"⟩ none
        = Except.error (readErrMsg ⟨false, 404, "Not Found", "no sheet"⟩)
    ∧ strHasSub (readErrMsg ⟨false, 404, "Not Found", "no sheet"⟩) (toString 404) = true
    ∧ strHasSub (readErrMsg ⟨false, 404, "Not Found", "no sheet"⟩) "no sheet" = true
    ∧ (∀ resp2 : UpstreamResp, ∀ vs2 : Option (List (List String)), resp2.ok = true →
        sheetsReadResult resp2 vs2 = Except.ok (vs2.getD []))
    ∧ (∀ e : SheetsErr, ∀ k : String, findExistingRow (Except.error e) k = 0) :=
  sheetsRead_explicit_error ⟨false, 404, "Not Found", "no sheet"⟩ none rfl

/-! ## Claim C2 -/

/-- Claim C2, counterexample: the hand-rolled REST folder search (the
variant actually used together with the multipart upload) queries, for
name `Reports` under parent `root`, a filter with no trashed clause at
all — the claimed `trashed = false` conjunct is absent. -/
theorem restFolderQuery_omits_trashed :
    strHasSub (restFolderQuery "Reports" "root") "trashed=false" = false
    ∧ strHasSub (restFolderQuery "Reports" "root") "trashed" = false := by
  exact ⟨rfl, rfl⟩

/-- Claim C2, amended: the googleapis-variant folder search conjoins
all four conditions — name equality, the parent clause (written
`parents in '<parentId>'`), the folder mimeType, and `trashed=false` —
and on any match returns the first match's id without creating
anything; the hand-rolled REST variant conjoins only the first three
(its filter for `Reports` under `root` contains no `trashed=false`)
and, when the first match's id is nonempty, likewise returns it without
creating anything. -/
theorem folderQuery_and_first_match (name parentId cid : String)
    (id : String) (tl : List String) (hid : ¬ id = "") :
    strHasSub (apiFolderQuery name parentId) ("name='" ++ name ++ "'") = true
    ∧ strHasSub (apiFolderQuery name parentId) ("parents in '" ++ parentId ++ "'") = true
    ∧ strHasSub (apiFolderQuery name parentId)
        "mimeType='application/vnd.google-apps.folder'" = true
    ∧ strHasSub (apiFolderQuery name parentId) "trashed=false" = true
    ∧ strHasSub (restFolderQuery name parentId) ("name='" ++ name ++ "'") = true
    ∧ strHasSub (restFolderQuery name parentId) ("'" ++ parentId ++ "' in parents") = true
    ∧ strHasSub (restFolderQuery name parentId)
        "mimeType='application/vnd.google-apps.folder'" = true
    ∧ strHasSub (restFolderQuery "Reports" "root") "trashed=false" = false
    ∧ apiFolderStep (id :: tl) cid = (id, false)
    ∧ restFolderStep (id :: tl) cid = (id, false)
    ∧ apiFolderStep [] cid = (cid, true)
    ∧ restFolderStep [] cid = (cid, true) := by
  refine ⟨?_, ?_, ?_, ?_, ?_, ?_, ?_, rfl, rfl, ?_, rfl, rfl⟩
  · refine strHasSub_decomp _ "" _
      (" and " ++ ("parents in '" ++ parentId ++ "'") ++ " and " ++
       "mimeType='application/vnd.google-apps.folder'" ++ " and " ++ "trashed=false")
      (String.ext ?_)
    simp [apiFolderQuery, String.data_append]
  · refine strHasSub_decomp _ (("name='" ++ name ++ "'") ++ " and ") _
      (" and " ++ "mimeType='application/vnd.google-apps.folder'" ++ " and " ++
       "trashed=false") (String.ext ?_)
    simp [apiFolderQuery, String.data_append]
  · refine strHasSub_decomp _
      (("name='" ++ name ++ "'") ++ " and " ++ ("parents in '" ++ parentId ++ "'") ++ " and ")
      _ (" and " ++ "trashed=false") (String.ext ?_)
    simp [apiFolderQuery, String.data_append]
  · refine strHasSub_decomp _
      (("name='" ++ name ++ "'") ++ " and " ++ ("parents in '" ++ parentId ++ "'") ++
        " and " ++ "mimeType='application/vnd.google-apps.folder'" ++ " and ") _ ""
      (String.ext ?_)
    simp [apiFolderQuery, String.data_append]
  · refine strHasSub_decomp _ "" _
      (" and " ++ ("'" ++ parentId ++ "' in parents") ++ " and " ++
       "mimeType='application/vnd.google-apps.folder'") (String.ext ?_)
    simp [restFolderQuery, String.data_append]
  · refine strHasSub_decomp _ (("name='" ++ name ++ "'") ++ " and ") _
      (" and " ++ "mimeType='application/vnd.google-apps.folder'") (String.ext ?_)
    simp [restFolderQuery, String.data_append]
  · refine strHasSub_decomp _
      (("name='" ++ name ++ "'") ++ " and " ++ ("'" ++ parentId ++ "' in parents") ++ " and ")
      _ "" (String.ext ?_)
    simp [restFolderQuery, String.data_append]
  · simp [restFolderStep, hid]

/-- Witness for the amended C2 theorem at concrete inputs. -/
theorem folderQuery_and_first_match_witness :
    strHasSub (apiFolderQuery "Reports" "root") ("name='" ++ "Reports" ++ "'") = true
    ∧ strHasSub (apiFolderQuery "Reports" "root") ("parents in '" ++ "root" ++ "'") = true
    ∧ strHasSub (apiFolderQuery "Reports" "root")
        "mimeType='application/vnd.google-apps.folder'" = true
    ∧ strHasSub (apiFolderQuery "Reports" "root") "trashed=false" = true
    ∧ strHasSub (restFolderQuery "Reports" "root") ("name='" ++ "Reports" ++ "'") = true
    ∧ strHasSub (restFolderQuery "Reports" "root") ("'" ++ "root" ++ "' in parents") = true
    ∧ strHasSub (restFolderQuery "Reports" "root")
        "mimeType='application/vnd.google-apps.folder'" = true
    ∧ strHasSub (restFolderQuery "Reports" "root") "trashed=false" = false
    ∧ apiFolderStep ("folder-1" :: []) "new-id" = ("folder-1", false)
    ∧ restFolderStep ("folder-1" :: []) "new-id" = ("folder-1", false)
    ∧ apiFolderStep [] "new-id" = ("new-id", true)
    ∧ restFolderStep [] "new-id" = ("new-id", true) :=
  folderQuery_and_first_match "Reports" "root" "new-id" "folder-1" [] (by decide)

/-! ## Claim C4 -/

/-- Claim C4: `findExistingRow` returns the 1-based index of the first
row of the `A:A` read whose first cell is exactly string-equal to the
key, and 0 when no row's first cell equals it; on a sheet with
first-column rows `[["A1"],["B2"],["C3"]]` it returns 0 for key `Z9`
and 2 for key `B2`. -/
theorem findExistingRow_first_match (vs : List (List String)) (k : String) :
    ((∀ r ∈ vs, ¬ r.head? = some k) → findExistingRow (Except.ok (some vs)) k = 0)
    ∧ (∀ j : Nat, ∀ hj : j < vs.length, (vs.get ⟨j, hj⟩).head? = some k →
        (∀ j' : Nat, ∀ h : j' < j, ¬ (vs.get ⟨j', h.trans hj⟩).head? = some k) →
        findExistingRow (Except.ok (some vs)) k = j + 1)
    ∧ findExistingRow (Except.ok (some [["A1"], ["B2"], ["C3"]])) "Z9" = 0
    ∧ findExistingRow (Except.ok (some [["A1"], ["B2"], ["C3"]])) "B2" = 2 := by
  refine ⟨?_, ?_, rfl, rfl⟩
  · intro h
    simp only [findExistingRow]
    rw [findRowAux_eq, findIdx1_none_of k vs h]
    rfl
  · intro j hj hget hbefore
    simp only [findExistingRow]
    rw [findRowAux_eq, findIdx1_first k vs j hj hget hbefore]
    simp

/-- Witness for the C4 theorem: the not-found branch at a concrete
sheet, discharged by evaluation. -/
theorem findExistingRow_first_match_witness :
    findExistingRow (Except.ok (some [["A1"], ["B2"], ["C3"]])) "Z9" = 0 :=
  (findExistingRow_first_match [["A1"], ["B2"], ["C3"]] "Z9").1 (by decide)

/-! ## Claim C3 -/

theorem findExistingRow_ok_eq (k : String) (vs : List (List String)) :
    findExistingRow (Except.ok (some vs)) k = (findIdx1 k vs).getD 0 := by
  simp only [findExistingRow]
  rw [findRowAux_eq]
  cases findIdx1 k vs <;> simp

theorem applySync_eq (sheet : List (List String)) (d : IncidentData) :
    applySync sheet d =
      match findIdx1 d.id sheet with
      | none => sheet ++ [rowDataOf d]
      | some m => sheet.set (m - 1) (rowDataOf d) := by
  simp only [applySync, findExistingRow_ok_eq, findIdx1_readColA]
  cases hf : findIdx1 d.id sheet with
  | none => simp
  | some m =>
    have hm := findIdx1_pos d.id sheet m hf
    simp only [Option.getD_some]
    rw [if_pos (by omega)]

theorem list_set_set (l : List (List String)) (n : Nat) (a b : List String) :
    (l.set n a).set n b = l.set n b := by
  induction l generalizing n with
  | nil => rfl
  | cons x xs ih =>
    cases n with
    | zero => rfl
    | succ n' => simp [List.set, ih]

/-- Claim C3: the sync keys each record by its first column (the
incident id); a positive lookup result makes the handler update exactly
the single row range `A<i>:O<i>`, a zero result makes it append; on the
grid this means a second sync of a record with the same key lands on
the row the first sync wrote (the grid is as if only the second record
had been synced) and adds no new row — last-write-wins per key. -/
theorem syncUpsert_lastWriteWins (sheet : List (List String)) (d1 d2 : IncidentData)
    (sheetName : String)
    (readA : Except SheetsErr (Option (List (List String))))
    (hk : d1.id = d2.id) :
    (rowDataOf d1).head? = some d1.id
    ∧ (0 < findExistingRow readA d1.id →
        syncAction sheetName readA d1 =
          SyncAction.update
            (sheetName ++ "!A" ++ toString (findExistingRow readA d1.id) ++ ":O"
              ++ toString (findExistingRow readA d1.id)) (rowDataOf d1))
    ∧ (findExistingRow readA d1.id = 0 →
        syncAction sheetName readA d1 =
          SyncAction.append (sheetName ++ "!A:O") (rowDataOf d1))
    ∧ applySync (applySync sheet d1) d2 = applySync sheet d2
    ∧ (applySync (applySync sheet d1) d2).length = (applySync sheet d1).length := by
  have hmain : applySync (applySync sheet d1) d2 = applySync sheet d2 := by
    rw [applySync_eq sheet d1, applySync_eq sheet d2, ← hk]
    cases hf : findIdx1 d1.id sheet with
    | none =>
      rw [applySync_eq, ← hk, findIdx1_append_none d1.id sheet (rowDataOf d1) hf rfl]
      show (sheet ++ [rowDataOf d1]).set (sheet.length + 1 - 1) (rowDataOf d2)
          = sheet ++ [rowDataOf d2]
      rw [show sheet.length + 1 - 1 = sheet.length from rfl, set_length_append]
    | some m =>
      rw [applySync_eq, ← hk, findIdx1_set d1.id sheet m (rowDataOf d1) hf rfl]
      exact list_set_set sheet (m - 1) (rowDataOf d1) (rowDataOf d2)
  have hlen : (applySync sheet d2).length = (applySync sheet d1).length := by
    rw [applySync_eq, applySync_eq, ← hk]
    cases hf : findIdx1 d1.id sheet <;> simp
  exact ⟨rfl, fun h => by simp [syncAction, h], fun h => by simp [syncAction, h],
    hmain, by rw [hmain, hlen]⟩

/-- An incident record used as concrete input. -/
def demoIncident1 : IncidentData :=
  ⟨"INC-1", "2024-01-01", "08:00", none, none, "Lokasi", "Deskripsi", "open",
   "Teknisi", none, none, none, none, "c1", "u1"⟩

/-- A second record with the same business key. -/
def demoIncident2 : IncidentData :=
  ⟨"INC-1", "2024-01-02", "09:00", some "10:00", some "1h", "Lokasi2", "Deskripsi2",
   "closed", "Teknisi2", some "x", none, none, none, "c2", "u2"⟩

/-- Witness for the C3 theorem at concrete records sharing the key. -/
theorem syncUpsert_lastWriteWins_witness :
    (rowDataOf demoIncident1).head? = some demoIncident1.id
    ∧ (0 < findExistingRow (Except.ok none) demoIncident1.id →
        syncAction "S" (Except.ok none) demoIncident1 =
          SyncAction.update
            ("S" ++ "!A" ++ toString (findExistingRow (Except.ok none) demoIncident1.id)
              ++ ":O" ++ toString (findExistingRow (Except.ok none) demoIncident1.id))
            (rowDataOf demoIncident1))
    ∧ (findExistingRow (Except.ok none) demoIncident1.id = 0 →
        syncAction "S" (Except.ok none) demoIncident1 =
          SyncAction.append ("S" ++ "!A:O") (rowDataOf demoIncident1))
    ∧ applySync (applySync [] demoIncident1) demoIncident2 = applySync [] demoIncident2
    ∧ (applySync (applySync [] demoIncident1) demoIncident2).length
        = (applySync [] demoIncident1).length :=
  syncUpsert_lastWriteWins [] demoIncident1 demoIncident2 "S" (Except.ok none) rfl

/-! ## Claim C6 -/

theorem map_self_of_fix {α : Type} (f : α → α) (l : List α)
    (h : ∀ a ∈ l, f a = a) : l.map f = l := by
  induction l with
  | nil => rfl
  | cons x xs ih =>
    simp only [List.map_cons, h x (by simp)]
    rw [ih (fun a ha => h a (by simp [ha]))]

theorem find?_append_of_none {α : Type} (p : α → Bool) (l1 l2 : List α)
    (h : ∀ a ∈ l1, ¬ p a = true) : (l1 ++ l2).find? p = l2.find? p := by
  induction l1 with
  | nil => rfl
  | cons x xs ih =>
    have hx : p x = false := by
      cases hp : p x
      · rfl
      · exact absurd hp (h x (by simp))
    simp only [List.cons_append, List.find?_cons, hx]
    exact ih (fun a ha => h a (by simp [ha]))

theorem ensure_noop (ss : Spreadsheet) (t : String)
    (h : ss.sheets.any (fun s => s.title = t) = true) :
    ensureSheetExists ss t = (ss, false) := by
  simp [ensureSheetExists, h]

theorem ensure_created_sheets (ss : Spreadsheet) (t : String)
    (h : ss.sheets.any (fun s => s.title = t) = false) :
    (ensureSheetExists ss t).1.sheets = ss.sheets ++ [⟨t, [sheetHeaders]⟩] := by
  have hall : ∀ s ∈ ss.sheets, ¬ s.title = t := by
    intro s hs
    have := List.any_eq_false.mp h s hs
    simpa using this
  simp only [ensureSheetExists, h, Bool.false_eq_true, if_false]
  simp only [setHeaderRow, addSheet, List.map_append]
  rw [map_self_of_fix _ ss.sheets (fun s hs => by simp [hall s hs])]
  simp [setRow1]

theorem ensure_any_after (ss : Spreadsheet) (t : String) :
    (ensureSheetExists ss t).1.sheets.any (fun s => s.title = t) = true := by
  cases h : ss.sheets.any (fun s => s.title = t) with
  | true => rw [ensure_noop ss t h]; exact h
  | false =>
    have := ensure_created_sheets ss t h
    rw [this]
    simp

/-- Claim C6: with the spreadsheet well-formed (at most one sheet per
title, as the Sheets service guarantees), calling `ensureSheetExists`
twice with the same title leaves exactly one sheet with that title, the
second call issues no batch update and changes nothing — in particular
the header row written by the first call (when it created the sheet) is
still in place after the second call. -/
theorem ensureSheetExists_idempotent (ss : Spreadsheet) (t : String)
    (hcount : countTitled ss t ≤ 1) :
    (ensureSheetExists (ensureSheetExists ss t).1 t).1 = (ensureSheetExists ss t).1
    ∧ (ensureSheetExists (ensureSheetExists ss t).1 t).2 = false
    ∧ countTitled (ensureSheetExists (ensureSheetExists ss t).1 t).1 t = 1
    ∧ ((ensureSheetExists ss t).2 = true →
        headerOf (ensureSheetExists (ensureSheetExists ss t).1 t).1 t
          = some sheetHeaders) := by
  have hsecond := ensure_noop (ensureSheetExists ss t).1 t (ensure_any_after ss t)
  have h1 : (ensureSheetExists (ensureSheetExists ss t).1 t).1 = (ensureSheetExists ss t).1 := by
    rw [hsecond]
  have h2 : (ensureSheetExists (ensureSheetExists ss t).1 t).2 = false := by
    rw [hsecond]
  have hcount1 : countTitled (ensureSheetExists ss t).1 t = 1 := by
    cases h : ss.sheets.any (fun s => s.title = t) with
    | true =>
      rw [ensure_noop ss t h]
      have hex : ∃ s ∈ ss.sheets, s.title = t := by
        have := List.any_eq_true.mp h
        simpa using this
      have hpos : 0 < countTitled ss t := by
        simp only [countTitled]
        rw [List.countP_pos_iff]
        obtain ⟨s, hs, hst⟩ := hex
        exact ⟨s, hs, by simpa using hst⟩
      show countTitled ss t = 1
      omega
    | false =>
      have hall : ∀ s ∈ ss.sheets, ¬ s.title = t := by
        intro s hs
        have := List.any_eq_false.mp h s hs
        simpa using this
      simp only [countTitled]
      rw [ensure_created_sheets ss t h, List.countP_append]
      have hz : ss.sheets.countP (fun s => s.title = t) = 0 := by
        rw [List.countP_eq_zero]
        intro s hs
        simpa using hall s hs
      simp [hz]
  refine ⟨h1, h2, by rw [h1]; exact hcount1, ?_⟩
  intro hcreated
  rw [h1]
  have h : ss.sheets.any (fun s => s.title = t) = false := by
    cases h : ss.sheets.any (fun s => s.title = t) with
    | true => rw [ensure_noop ss t h] at hcreated; simp at hcreated
    | false => rfl
  have hall : ∀ s ∈ ss.sheets, ¬ s.title = t := by
    intro s hs
    have := List.any_eq_false.mp h s hs
    simpa using this
  simp only [headerOf]
  rw [ensure_created_sheets ss t h,
    find?_append_of_none _ ss.sheets _ (fun s hs => by simpa using hall s hs)]
  simp [List.find?_cons]

/-- Witness for the C6 theorem at a concrete empty spreadsheet. -/
theorem ensureSheetExists_idempotent_witness :
    (ensureSheetExists (ensureSheetExists ⟨[]⟩ "2024-01").1 "2024-01").1
        = (ensureSheetExists ⟨[]⟩ "2024-01").1
    ∧ (ensureSheetExists (ensureSheetExists ⟨[]⟩ "2024-01").1 "2024-01").2 = false
    ∧ countTitled (ensureSheetExists (ensureSheetExists ⟨[]⟩ "2024-01").1 "2024-01").1
        "2024-01" = 1
    ∧ ((ensureSheetExists ⟨[]⟩ "2024-01").2 = true →
        headerOf (ensureSheetExists (ensureSheetExists ⟨[]⟩ "2024-01").1 "2024-01").1
          "2024-01" = some sheetHeaders) :=
  ensureSheetExists_idempotent ⟨[]⟩ "2024-01" (by decide)

/-! ## Claim C9 -/

/-- An incident record used as concrete input for the run models. -/
def demoIncident3 : IncidentData :=
  ⟨"INC-9", "2024-02-01", "07:00", none, none, "L", "D", "open",
   "T", none, none, none, none, "c", "u"⟩

/-- Claim C9, counterexample: a non-success upstream response for which
the operation raises no typed error at all — with the sheet already
present and the row write succeeding, a failed `A:A` read (status 500)
is caught inside `findExistingRow`, which returns 0 as if the key were
absent, and the sync operation runs on to a successful completion
instead of surfacing an error for the failed read. -/
theorem sheetsSync_swallows_failed_read :
    (sheetsSyncRun (Except.ok true) (Except.ok ()) (Except.ok ())
        (Except.error ⟨500, "backend error"⟩) (Except.ok ()) demoIncident3).1
      = Except.ok ()
    ∧ findExistingRow (Except.error ⟨500, "backend error"⟩) demoIncident3.id = 0 := by
  exact ⟨rfl, rfl⟩

/-- Claim C9, amended: within one operation every upstream call is
attempted at most once — no request kind ever appears twice in an
operation's request trace, so nothing is retried — and a non-success
response aborts the operation with a typed error at every call site of
the modelled drive-upload and sheets-sync pipelines except the
sheets-sync `A:A` read: that read's failure is caught and treated as
key-not-found, so the operation proceeds (and can complete
successfully) without raising any error for it. -/
theorem no_internal_retries (tok test up : UpstreamResp) (fid : String)
    (metaResp : Except String Bool) (addResp hdrResp : Except String Unit)
    (readA : Except SheetsErr (Option (List (List String))))
    (writeResp : Except String Unit) (d : IncidentData) :
    (∀ k : ReqKind, (driveUploadRun tok test up fid).2.count k ≤ 1)
    ∧ (tok.ok = false →
        (driveUploadRun tok test up fid).1
            = Except.error ("Token request failed: " ++ toString tok.status)
        ∧ (driveUploadRun tok test up fid).2 = [ReqKind.token])
    ∧ (tok.ok = true → test.ok = false →
        (driveUploadRun tok test up fid).1
            = Except.error ("Drive API access failed: " ++ toString test.status
                ++ " - " ++ test.body)
        ∧ (driveUploadRun tok test up fid).2 = [ReqKind.token, ReqKind.driveTest])
    ∧ (tok.ok = true → test.ok = true → up.ok = false →
        (driveUploadRun tok test up fid).1
            = Except.error ("Upload failed: " ++ toString up.status ++ " "
                ++ up.statusText ++ " - " ++ up.body)
        ∧ (driveUploadRun tok test up fid).2
            = [ReqKind.token, ReqKind.driveTest, ReqKind.upload])
    ∧ (∀ q : SheetsReq,
        (sheetsSyncRun metaResp addResp hdrResp readA writeResp d).2.count q ≤ 1)
    ∧ (∀ em : String,
        (sheetsSyncRun (Except.error em) addResp hdrResp readA writeResp d).1
            = Except.error em
        ∧ (sheetsSyncRun (Except.error em) addResp hdrResp readA writeResp d).2
            = [SheetsReq.metaGet])
    ∧ (∀ em : String,
        (sheetsSyncRun (Except.ok false) (Except.error em) hdrResp readA writeResp d).1
            = Except.error em
        ∧ (sheetsSyncRun (Except.ok false) (Except.error em) hdrResp readA writeResp d).2
            = [SheetsReq.metaGet, SheetsReq.batchAdd])
    ∧ (∀ em : String,
        (sheetsSyncRun (Except.ok false) (Except.ok ()) (Except.error em) readA
            writeResp d).1 = Except.error em
        ∧ (sheetsSyncRun (Except.ok false) (Except.ok ()) (Except.error em) readA
            writeResp d).2
            = [SheetsReq.metaGet, SheetsReq.batchAdd, SheetsReq.headerWrite])
    ∧ (∀ em : String, ∀ st : Bool,
        (sheetsSyncRun (Except.ok st) (Except.ok ()) (Except.ok ()) readA
            (Except.error em) d).1 = Except.error em)
    ∧ (∀ e : SheetsErr, ∀ st : Bool,
        (sheetsSyncRun (Except.ok st) (Except.ok ()) (Except.ok ())
            (Except.error e) (Except.ok ()) d).1 = Except.ok ()) := by
  refine ⟨?_, ?_, ?_, ?_, ?_, ?_, ?_, ?_, ?_, ?_⟩
  · intro k
    cases htok : tok.ok <;> cases htest : test.ok <;> cases hup : up.ok <;>
      simp only [driveUploadRun, htok, htest, hup] <;> cases k <;> simp
  · intro h
    refine ⟨?_, ?_⟩ <;> simp [driveUploadRun, h]
  · intro h1 h2
    refine ⟨?_, ?_⟩ <;> simp [driveUploadRun, h1, h2]
  · intro h1 h2 h3
    refine ⟨?_, ?_⟩ <;> simp [driveUploadRun, h1, h2, h3]
  · intro q
    rcases metaResp with m | st
    · simp only [sheetsSyncRun]; cases q <;> decide
    · cases st <;> rcases addResp with am | au <;> rcases hdrResp with hm | hu <;>
        rcases writeResp with wm | wu <;> simp only [sheetsSyncRun] <;>
        cases q <;> simp
  · intro em
    exact ⟨rfl, rfl⟩
  · intro em
    exact ⟨rfl, rfl⟩
  · intro em
    exact ⟨rfl, rfl⟩
  · intro em st
    cases st <;> rfl
  · intro e st
    cases st <;> rfl

/-- Witness for the C9 theorem: a failed token exchange aborts the
drive-upload operation after the single token request. -/
theorem no_internal_retries_witness :
    (driveUploadRun ⟨false, 503, "Service Unavailable", "overload"⟩
        ⟨true, 200, "OK", ""⟩ ⟨true, 200, "OK", ""⟩ "fid").1
      = Except.error ("Token request failed: " ++ toString (503 : Nat))
    ∧ (driveUploadRun ⟨false, 503, "Service Unavailable", "overload"⟩
        ⟨true, 200, "OK", ""⟩ ⟨true, 200, "OK", ""⟩ "fid").2 = [ReqKind.token] :=
  (no_internal_retries ⟨false, 503, "Service Unavailable", "overload"⟩
    ⟨true, 200, "OK", ""⟩ ⟨true, 200, "OK", ""⟩ "fid"
    (Except.ok true) (Except.ok ()) (Except.ok ()) (Except.ok none) (Except.ok ())
    demoIncident3).2.1 rfl

/-! ## Claim C10 -/

/-- Claim C10: for the drive-upload, sheets-sync, and database-CRUD
handlers, every error raised during handling — schema parse failure,
or any non-success upstream response — is caught by the handler's
`try/catch` and answered with a JSON response carrying
`success = false`, the error message, and HTTP status 500; the handler
models are total functions, so no exception escapes to the framework,
and an error-free run answers 200 with `success = true`. -/
theorem handlers_catch_all (tok test up : UpstreamResp) (fid : String)
    (metaResp : Except String Bool) (addResp hdrResp : Except String Unit)
    (readA : Except SheetsErr (Option (List (List String))))
    (writeResp : Except String Unit) (opResult : Except String Nat) :
    (∀ m : String, googleDriveUploadHandle (Except.error m) tok test up fid
        = ⟨500, false, some m, none⟩)
    ∧ (∀ x : String, tok.ok = false →
        googleDriveUploadHandle (Except.ok x) tok test up fid
          = ⟨500, false, some ("Token request failed: " ++ toString tok.status), none⟩)
    ∧ (∀ m : String, googleSheetsSyncHandle (Except.error m) metaResp addResp hdrResp
        readA writeResp = ⟨500, false, some m, none⟩)
    ∧ (∀ d : IncidentData, ∀ em : String, metaResp = Except.error em →
        googleSheetsSyncHandle (Except.ok d) metaResp addResp hdrResp readA writeResp
          = ⟨500, false, some em, none⟩)
    ∧ (∀ m : String, supabaseCrudHandle (Except.error m) opResult
        = ⟨500, false, some m, none⟩)
    ∧ (∀ x : String, ∀ em : String, opResult = Except.error em →
        supabaseCrudHandle (Except.ok x) opResult = ⟨500, false, some em, none⟩)
    ∧ (∀ x : String, tok.ok = true → test.ok = true → up.ok = true →
        googleDriveUploadHandle (Except.ok x) tok test up fid
          = ⟨200, true, none, some fid⟩) := by
  refine ⟨?_, ?_, ?_, ?_, ?_, ?_, ?_⟩
  · intro m
    rfl
  · intro x h
    simp [googleDriveUploadHandle, driveUploadRun, h]
    rfl
  · intro m
    rfl
  · intro d em h
    simp [googleSheetsSyncHandle, sheetsSyncRun, h]
    rfl
  · intro m
    rfl
  · intro x em h
    simp [supabaseCrudHandle, h]
    rfl
  · intro x h1 h2 h3
    simp [googleDriveUploadHandle, driveUploadRun, h1, h2, h3]
    rfl

/-- Witness for the C10 theorem: a failed metadata fetch is answered
with a 500 `success = false` JSON response by the sync handler. -/
theorem handlers_catch_all_witness :
    googleSheetsSyncHandle (Except.ok demoIncident3) (Except.error "meta down")
        (Except.ok ()) (Except.ok ()) (Except.ok none) (Except.ok ())
      = ⟨500, false, some "meta down", none⟩ :=
  (handlers_catch_all ⟨false, 500, "ISE", "boom"⟩ ⟨false, 500, "ISE", "boom"⟩
    ⟨false, 500, "ISE", "boom"⟩ "fid" (Except.error "meta down") (Except.ok ())
    (Except.ok ()) (Except.ok none) (Except.ok ())
    (Except.error "op down")).2.2.2.1 demoIncident3 "meta down" rfl

end SpecProof
